import Mathlib

/-!
Shallow embedding of `bleak/backends/service.py`: the Bleak GATT service
collection (services, characteristics, descriptors), its insertion methods
and its handle/UUID lookup methods. Python dicts are modelled as
insertion-ordered association lists with unique keys; Python exceptions
(`BleakError`, `KeyError`) are modelled with `Except` / explicit error
components; `None` is `Option.none`.
-/

/-- A GATT descriptor: `handle`, `uuid` and the back-reference
`characteristic_handle` to its owning characteristic. -/
structure BleakGATTDescriptor where
  handle : Nat
  uuid : String
  characteristic_handle : Nat
deriving DecidableEq

/-- A GATT characteristic: `handle`, `uuid`, the back-reference
`service_handle` to its owning service, and its owned descriptor list. -/
structure BleakGATTCharacteristic where
  handle : Nat
  uuid : String
  service_handle : Nat
  descriptors : List BleakGATTDescriptor
deriving DecidableEq

/-- A GATT service: `handle`, `uuid` and its owned, insertion-ordered
characteristic list (`characteristics` property of the Python class). -/
structure BleakGATTService where
  handle : Nat
  uuid : String
  characteristics : List BleakGATTCharacteristic
deriving DecidableEq

/-- Modelled from the spec: `BleakGATTService.add_characteristic` is abstract
in the source (backend-implemented); per spec section 4.2 it "appends to the
owned sequence". -/
def BleakGATTService.add_characteristic (s : BleakGATTService)
    (c : BleakGATTCharacteristic) : BleakGATTService :=
  { s with characteristics := s.characteristics ++ [c] }

/-- Modelled from the spec: `BleakGATTCharacteristic.add_descriptor` is
abstract in the source (backend-implemented); per spec sections 4.3 and 5 the
descriptor is appended into the owning characteristic's descriptor list. -/
def BleakGATTCharacteristic.add_descriptor (c : BleakGATTCharacteristic)
    (d : BleakGATTDescriptor) : BleakGATTCharacteristic :=
  { c with descriptors := c.descriptors ++ [d] }

/-- A lookup specifier: Python `Union[int, str, UUID]`. A `uuid.UUID` object
passes through `str(...)` in every lookup, so it is modelled as its string
form. -/
inductive Specifier where
  | intSpec : Nat → Specifier
  | strSpec : String → Specifier
deriving DecidableEq

/-- Python `dict.get(k)` on an insertion-ordered int-keyed dict. -/
def dictGet (l : List (Nat × α)) (k : Nat) : Option α :=
  (l.find? (fun p => p.1 == k)).map (fun p => p.2)

/-- Python `k in dict`. -/
def dictMem (l : List (Nat × α)) (k : Nat) : Bool :=
  (dictGet l k).isSome

/-- Python `dict[k] = v` for a key not yet present: appended at the end of
the iteration order. -/
def dictInsert (l : List (Nat × α)) (k : Nat) (v : α) : List (Nat × α) :=
  l ++ [(k, v)]

/-- Python `dict[k] = v` for a key already present: the value is replaced in
place, iteration order unchanged. -/
def dictSet (l : List (Nat × α)) (k : Nat) (v : α) : List (Nat × α) :=
  l.map (fun p => if p.1 == k then (k, v) else p)

/-- Python `dict.values()` in insertion order. -/
def dictValues (l : List (Nat × α)) : List α :=
  l.map (fun p => p.2)

/-- Python `dict.get(k)` where `k` may be any specifier: the dict built by
the collection is keyed by int handles only, so a string key never equals a
stored key and the probe returns `None`. -/
def dictGetSpec (l : List (Nat × α)) (k : Specifier) : Option α :=
  match k with
  | .intSpec n => dictGet l n
  | .strSpec _ => none

/-- Python `str.lower()`, character-wise over the string's characters (UUID
strings are ASCII, where `Char.toLower` agrees with Python). -/
def pyLower (s : String) : String :=
  ⟨s.data.map Char.toLower⟩

/-- Python exceptions raised by the collection: `BleakError` with a message
(ambiguous UUID) and `KeyError` on a missing dict key (missing parent). -/
inductive PyError where
  | bleakError : String → PyError
  | keyError : Nat → PyError
deriving DecidableEq

/-- The 16-bit-to-128-bit UUID expansion
`f"0000{uuid}-0000-1000-8000-00805f9b34fb"`. -/
def baseUuidExpand (s : String) : String :=
  "0000" ++ s ++ "-0000-1000-8000-00805f9b34fb"

/-- `BleakGATTService.get_characteristic` (concrete base-class method): a
4-character string specifier is expanded to 128-bit form, then
`next(filter(lambda x: x.uuid == str(uuid).lower(), self.characteristics))`
returns the first match, or `None` on `StopIteration`. -/
def BleakGATTService.get_characteristic (s : BleakGATTService)
    (uuid : String) : Option BleakGATTCharacteristic :=
  let u := if uuid.length == 4 then baseUuidExpand uuid else uuid
  s.characteristics.find? (fun x => x.uuid == pyLower u)

/-- `BleakGATTServiceCollection`: the three handle-indexed, insertion-ordered
mappings. -/
structure BleakGATTServiceCollection where
  services : List (Nat × BleakGATTService)
  characteristics : List (Nat × BleakGATTCharacteristic)
  descriptors : List (Nat × BleakGATTDescriptor)
deriving DecidableEq

namespace BleakGATTServiceCollection

/-- `add_service`: insert under `service.handle` if absent; on a duplicate
handle only `logger.error` runs (no mutation, no exception). -/
def add_service (col : BleakGATTServiceCollection)
    (service : BleakGATTService) : BleakGATTServiceCollection :=
  if dictMem col.services service.handle then col
  else { col with services := dictInsert col.services service.handle service }

/-- The string-specifier normalization inside `get_service`:
`_specifier = str(specifier).lower()` followed by the 16-bit expansion when
the lowered string has length 4. -/
def uuidQueryNorm (s : String) : String :=
  let q0 := pyLower s
  if q0.length == 4 then baseUuidExpand q0 else q0

/-- The list `x` computed inside `get_service` for a string specifier:
`filter(lambda x: x.uuid.lower() == _specifier, self.services.values())`. -/
def matchingServices (col : BleakGATTServiceCollection) (s : String) :
    List BleakGATTService :=
  (dictValues col.services).filter (fun v => pyLower v.uuid == uuidQueryNorm s)

/-- `get_service`: int specifier is a direct dict probe; a string specifier
is lower-cased, expanded if 4 characters long, then matched against
`x.uuid.lower()` over all services; more than one match raises `BleakError`,
otherwise the first (only) match or `None` is returned. -/
def get_service (col : BleakGATTServiceCollection) (specifier : Specifier) :
    Except PyError (Option BleakGATTService) :=
  match specifier with
  | .intSpec n => .ok (dictGet col.services n)
  | .strSpec s =>
    let x := col.matchingServices s
    if x.length > 1 then
      .error (.bleakError "Multiple Services with this UUID, refer to your desired service by the handle attribute instead.")
    else .ok x.head?

/-- `add_characteristic`: if `characteristic.handle` is already a key, only
`logger.error` runs; otherwise the characteristic is first stored in the
flat mapping, then `self.__services[characteristic.service_handle]` is
probed — a missing parent raises `KeyError` (after the flat insert), a
present parent has the characteristic appended to it. -/
def add_characteristic (col : BleakGATTServiceCollection)
    (characteristic : BleakGATTCharacteristic) :
    BleakGATTServiceCollection × Option PyError :=
  if dictMem col.characteristics characteristic.handle then (col, none)
  else
    let col1 := { col with
      characteristics :=
        dictInsert col.characteristics characteristic.handle characteristic }
    match dictGet col1.services characteristic.service_handle with
    | none => (col1, some (.keyError characteristic.service_handle))
    | some s =>
      ({ col1 with
          services := dictSet col1.services characteristic.service_handle
            (s.add_characteristic characteristic) }, none)

/-- The list `x` computed inside the collection-level `get_characteristic`
for a string specifier:
`filter(lambda x: x.uuid == str(specifier).lower(), self.characteristics.values())`
— the specifier is lower-cased, the stored side is compared as-is, and no
16-bit expansion happens. -/
def matchingCharacteristics (col : BleakGATTServiceCollection) (s : String) :
    List BleakGATTCharacteristic :=
  (dictValues col.characteristics).filter (fun v => v.uuid == pyLower s)

/-- Collection-level `get_characteristic`: int specifier is a direct dict
probe; a string specifier is compared as `x.uuid == str(specifier).lower()`
over all characteristics (no 16-bit expansion, stored side not lower-cased);
more than one match raises `BleakError`. -/
def get_characteristic (col : BleakGATTServiceCollection)
    (specifier : Specifier) :
    Except PyError (Option BleakGATTCharacteristic) :=
  match specifier with
  | .intSpec n => .ok (dictGet col.characteristics n)
  | .strSpec s =>
    let x := col.matchingCharacteristics s
    if x.length > 1 then
      .error (.bleakError "Multiple Characteristics with this UUID, refer to your desired characteristic by the handle attribute instead.")
    else .ok x.head?

/-- `add_descriptor`: symmetric to `add_characteristic` over the descriptor
mapping and the owning characteristic. -/
def add_descriptor (col : BleakGATTServiceCollection)
    (descriptor : BleakGATTDescriptor) :
    BleakGATTServiceCollection × Option PyError :=
  if dictMem col.descriptors descriptor.handle then (col, none)
  else
    let col1 := { col with
      descriptors := dictInsert col.descriptors descriptor.handle descriptor }
    match dictGet col1.characteristics descriptor.characteristic_handle with
    | none => (col1, some (.keyError descriptor.characteristic_handle))
    | some c =>
      ({ col1 with
          characteristics :=
            dictSet col1.characteristics descriptor.characteristic_handle
              (c.add_descriptor descriptor) }, none)

/-- `get_descriptor`: `self.descriptors.get(handle)` — a plain dict probe on
the int-keyed descriptor mapping (a string specifier never equals an int
key, so it misses). -/
def get_descriptor (col : BleakGATTServiceCollection)
    (specifier : Specifier) : Option BleakGATTDescriptor :=
  dictGetSpec col.descriptors specifier

end BleakGATTServiceCollection

/-- The result type of the combined `__getitem__` lookup. -/
inductive GattEntity where
  | service : BleakGATTService → GattEntity
  | characteristic : BleakGATTCharacteristic → GattEntity
  | descriptor : BleakGATTDescriptor → GattEntity
deriving DecidableEq

namespace BleakGATTServiceCollection

/-- `__getitem__`: `get_service(item) or get_characteristic(item) or
get_descriptor(item)` — each lookup runs only if the previous returned
`None`, and an exception from any lookup propagates. -/
def getItem (col : BleakGATTServiceCollection) (item : Specifier) :
    Except PyError (Option GattEntity) :=
  match col.get_service item with
  | .error e => .error e
  | .ok (some s) => .ok (some (.service s))
  | .ok none =>
    match col.get_characteristic item with
    | .error e => .error e
    | .ok (some c) => .ok (some (.characteristic c))
    | .ok none => .ok ((col.get_descriptor item).map .descriptor)

end BleakGATTServiceCollection

/-! ### Helper lemmas about the dict model -/

theorem dictGet_eq_none_of_not_mem {α : Type} (l : List (Nat × α)) (k : Nat)
    (h : dictMem l k = false) : dictGet l k = none := by
  unfold dictMem at h
  cases hg : dictGet l k with
  | none => rfl
  | some a => rw [hg] at h; simp at h

theorem find?_eq_none_of_not_mem {α : Type} (l : List (Nat × α)) (k : Nat)
    (h : dictMem l k = false) :
    l.find? (fun p => p.1 == k) = none := by
  have hg := dictGet_eq_none_of_not_mem l k h
  unfold dictGet at hg
  exact Option.map_eq_none'.mp hg

theorem dictGet_insert_self {α : Type} (l : List (Nat × α)) (k : Nat) (v : α)
    (h : dictMem l k = false) : dictGet (dictInsert l k v) k = some v := by
  unfold dictGet dictInsert
  rw [List.find?_append, find?_eq_none_of_not_mem l k h]
  simp [List.find?]

theorem dictMem_insert_self {α : Type} (l : List (Nat × α)) (k : Nat) (v : α) :
    dictMem (dictInsert l k v) k = true := by
  unfold dictMem dictGet dictInsert
  rw [List.find?_append]
  cases hf : l.find? (fun p => p.1 == k) with
  | none => simp [List.find?]
  | some p => simp

theorem dictGet_set_self {α : Type} (l : List (Nat × α)) (k : Nat) (v : α)
    (h : (dictGet l k).isSome = true) :
    dictGet (dictSet l k v) k = some v := by
  induction l with
  | nil => simp [dictGet] at h
  | cons p t ih =>
    by_cases hk : p.1 == k
    · unfold dictSet dictGet
      simp only [List.map_cons, hk, if_true]
      rw [List.find?_cons_of_pos _ (by simp)]
      rfl
    · unfold dictSet dictGet at *
      simp only [List.map_cons, hk, if_false, Bool.false_eq_true]
      rw [List.find?_cons_of_neg _ (by simp_all)] at h ⊢
      exact ih h

theorem charToLower_not_upper (c : Char) : (c.toLower).isUpper = false := by
  unfold Char.toLower
  by_cases h : c.toNat ≥ 65 ∧ c.toNat ≤ 90
  · rw [if_pos h]
    have hv : (c.toNat + 32).isValidChar := Or.inl (by omega)
    have hval : (Char.ofNat (c.toNat + 32)).val.toNat = c.toNat + 32 := by
      simp only [Char.ofNat, hv, dite_true, Char.ofNatAux]
      rfl
    simp only [Char.isUpper]
    have h90 : ¬ ((Char.ofNat (c.toNat + 32)).val ≤ 90) := by
      show ¬ ((Char.ofNat (c.toNat + 32)).val.toNat ≤ (90 : UInt32).toNat)
      rw [hval]
      show ¬ (c.toNat + 32 ≤ 90)
      omega
    simp [h90]
  · rw [if_neg h]
    simp only [Char.isUpper]
    rcases Decidable.not_and_iff_or_not.mp h with h1 | h1
    · have hn : ¬ (c.val ≥ 65) := by
        intro hc; exact h1 (show 65 ≤ c.toNat from hc)
      simp [hn]
    · have hn : ¬ (c.val ≤ 90) := by
        intro hc; exact h1 (show c.toNat ≤ 90 from hc)
      simp [hn]

/-- Every character of a `pyLower` image is non-uppercase. -/
theorem pyLower_no_upper (s : String) :
    ∀ ch ∈ (pyLower s).data, ch.isUpper = false := by
  intro ch hch
  unfold pyLower at hch
  simp only [List.mem_map] at hch
  obtain ⟨c, _, hc⟩ := hch
  rw [← hc]
  exact charToLower_not_upper c

/-- Equality of modelled call results (`Except` values) is decidable, so
witnesses can evaluate concrete calls. -/
instance exceptDecEq {ε α : Type} [DecidableEq ε] [DecidableEq α] :
    DecidableEq (Except ε α) := fun x y =>
  match x, y with
  | .ok a, .ok b =>
    if h : a = b then isTrue (by rw [h])
    else isFalse (by intro hc; cases hc; exact h rfl)
  | .ok _, .error _ => isFalse (by intro hc; cases hc)
  | .error _, .ok _ => isFalse (by intro hc; cases hc)
  | .error e, .error f =>
    if h : e = f then isTrue (by rw [h])
    else isFalse (by intro hc; cases hc; exact h rfl)

/-! ### Concrete instances used by witnesses and counterexamples -/

/-- The empty collection, as built by `__init__`. -/
def emptyCol : BleakGATTServiceCollection := ⟨[], [], []⟩

/-- A service stored under the canonical 128-bit form of the 16-bit UUID
`180a`. -/
def svcHeart : BleakGATTService :=
  ⟨1, "0000180a-0000-1000-8000-00805f9b34fb", []⟩

/-- A second service with a different handle but the same UUID as
`svcHeart`. -/
def svcHeartDup : BleakGATTService :=
  ⟨2, "0000180a-0000-1000-8000-00805f9b34fb", []⟩

/-- A characteristic of `svcHeart`, stored under the canonical 128-bit UUID
form. -/
def chHeart : BleakGATTCharacteristic :=
  ⟨10, "0000180a-0000-1000-8000-00805f9b34fb", 1, []⟩

/-- A characteristic whose stored UUID contains uppercase hex letters. -/
def chUpper : BleakGATTCharacteristic :=
  ⟨11, "0000180A-0000-1000-8000-00805F9B34FB", 1, []⟩

/-- A descriptor of `chHeart`. -/
def descCccd : BleakGATTDescriptor := ⟨5, "2902", 10⟩

/-! ### Claims -/

/-- C5: after `add_service(s)` on a collection without `s.handle`,
`get_service(s.handle)` returns `s` itself; a second `add_service` with a
service carrying the same handle leaves the whole collection state
unchanged (original entry wins, insertion skipped). `add_service` returns
only the collection and cannot raise, so no error reaches the caller — the
duplicate path runs only `logger.error`. -/
theorem c5_add_service_get_roundtrip (col : BleakGATTServiceCollection)
    (s s2 : BleakGATTService)
    (hfresh : dictMem col.services s.handle = false)
    (hdup : s2.handle = s.handle) :
    (col.add_service s).get_service (.intSpec s.handle) = .ok (some s) ∧
    (col.add_service s).add_service s2 = col.add_service s := by
  have hcol : col.add_service s =
      { col with services := dictInsert col.services s.handle s } := by
    unfold BleakGATTServiceCollection.add_service
    rw [hfresh]
    simp
  constructor
  · rw [hcol]
    show Except.ok (dictGet (dictInsert col.services s.handle s) s.handle) =
      Except.ok (some s)
    rw [dictGet_insert_self _ _ _ hfresh]
  · rw [hcol]
    unfold BleakGATTServiceCollection.add_service
    rw [hdup]
    simp [dictMem_insert_self]

/-- C5 witness: concrete round-trip through `add_service` and duplicate
insertion. -/
theorem c5_witness :
    (emptyCol.add_service svcHeart).get_service (.intSpec svcHeart.handle) =
      .ok (some svcHeart) ∧
    (emptyCol.add_service svcHeart).add_service
        ⟨1, "00002222-0000-1000-8000-00805f9b34fb", []⟩ =
      emptyCol.add_service svcHeart :=
  c5_add_service_get_roundtrip emptyCol svcHeart
    ⟨1, "00002222-0000-1000-8000-00805f9b34fb", []⟩ (by decide) (by decide)

/-- C9: `get_descriptor` is an integer-handle-only probe of the int-keyed
descriptor dict: a string (UUID) specifier returns `None` even when a stored
descriptor's UUID equals that string, and an integer specifier is exactly
the dict probe. -/
theorem c9_descriptor_handle_only (col : BleakGATTServiceCollection) :
    (∀ u : String, ∀ d ∈ dictValues col.descriptors, d.uuid = u →
      col.get_descriptor (.strSpec u) = none) ∧
    (∀ n : Nat, col.get_descriptor (.intSpec n) = dictGet col.descriptors n) := by
  constructor
  · intro u d _ _
    rfl
  · intro n
    rfl

/-- C9 witness: a stored descriptor with UUID `2902` is not found by the
string `2902` but is found by its handle. -/
theorem c9_witness :
    (⟨[], [], [(5, descCccd)]⟩ : BleakGATTServiceCollection).get_descriptor
        (.strSpec "2902") = none ∧
    (⟨[], [], [(5, descCccd)]⟩ : BleakGATTServiceCollection).get_descriptor
        (.intSpec 5) = some descCccd := by
  have h := c9_descriptor_handle_only ⟨[], [], [(5, descCccd)]⟩
  refine ⟨h.1 "2902" descCccd (by decide) (by decide), ?_⟩
  rw [h.2 5]
  decide

/-- C7: the combined `__getitem__` lookup tries service, then
characteristic, then descriptor, in that order, returning the first
non-`None` result (or the descriptor probe's result, possibly `None`, when
the first two lookups return `None`). -/
theorem c7_getitem_priority (col : BleakGATTServiceCollection)
    (x : Specifier) :
    (∀ s, col.get_service x = .ok (some s) →
      col.getItem x = .ok (some (.service s))) ∧
    (∀ c, col.get_service x = .ok none →
      col.get_characteristic x = .ok (some c) →
      col.getItem x = .ok (some (.characteristic c))) ∧
    (col.get_service x = .ok none → col.get_characteristic x = .ok none →
      col.getItem x = .ok ((col.get_descriptor x).map .descriptor)) := by
  refine ⟨?_, ?_, ?_⟩
  · intro s hs
    simp [BleakGATTServiceCollection.getItem, hs]
  · intro c hs hc
    simp [BleakGATTServiceCollection.getItem, hs, hc]
  · intro hs hc
    simp [BleakGATTServiceCollection.getItem, hs, hc]

/-- C7 witness: the spec's example — service handle 1, characteristic
handle 10; `collection[10]` falls through the service lookup to the
characteristic lookup and returns the characteristic. -/
theorem c7_witness :
    (⟨[(1, svcHeart)], [(10, chHeart)], []⟩ :
        BleakGATTServiceCollection).getItem (.intSpec 10) =
      .ok (some (.characteristic chHeart)) :=
  (c7_getitem_priority ⟨[(1, svcHeart)], [(10, chHeart)], []⟩
      (.intSpec 10)).2.1 chHeart (by decide) (by decide)

/-- C2: collection-level UUID lookup is three-way, for both `get_service`
over the service mapping and `get_characteristic` over the characteristic
mapping: zero matches returns `None`, exactly one match returns that entity,
and more than one match raises the ambiguous-UUID `BleakError` instead of
silently returning one of the matches. -/
theorem c2_uuid_lookup_three_way (col : BleakGATTServiceCollection)
    (u : String) :
    ((col.matchingServices u).length = 0 →
      col.get_service (.strSpec u) = .ok none) ∧
    (∀ s, col.matchingServices u = [s] →
      col.get_service (.strSpec u) = .ok (some s)) ∧
    ((col.matchingServices u).length > 1 →
      col.get_service (.strSpec u) = .error (.bleakError
        "Multiple Services with this UUID, refer to your desired service by the handle attribute instead.")) ∧
    ((col.matchingCharacteristics u).length = 0 →
      col.get_characteristic (.strSpec u) = .ok none) ∧
    (∀ c, col.matchingCharacteristics u = [c] →
      col.get_characteristic (.strSpec u) = .ok (some c)) ∧
    ((col.matchingCharacteristics u).length > 1 →
      col.get_characteristic (.strSpec u) = .error (.bleakError
        "Multiple Characteristics with this UUID, refer to your desired characteristic by the handle attribute instead.")) := by
  refine ⟨?_, ?_, ?_, ?_, ?_, ?_⟩
  · intro h
    have hx := List.length_eq_zero.mp h
    simp [BleakGATTServiceCollection.get_service, hx]
  · intro s hs
    simp [BleakGATTServiceCollection.get_service, hs]
  · intro h
    simp only [BleakGATTServiceCollection.get_service]
    rw [if_pos h]
  · intro h
    have hx := List.length_eq_zero.mp h
    simp [BleakGATTServiceCollection.get_characteristic, hx]
  · intro c hc
    simp [BleakGATTServiceCollection.get_characteristic, hc]
  · intro h
    simp only [BleakGATTServiceCollection.get_characteristic]
    rw [if_pos h]

/-- C2 witness: two services share the UUID `180a`, so the short-form
service lookup raises the ambiguity error; a single characteristic stored
under the canonical UUID is returned by the full-form characteristic
lookup. -/
theorem c2_witness :
    (⟨[(1, svcHeart), (2, svcHeartDup)], [(10, chHeart)], []⟩ :
        BleakGATTServiceCollection).get_service (.strSpec "180a") =
      .error (.bleakError
        "Multiple Services with this UUID, refer to your desired service by the handle attribute instead.") ∧
    (⟨[(1, svcHeart), (2, svcHeartDup)], [(10, chHeart)], []⟩ :
        BleakGATTServiceCollection).get_characteristic
        (.strSpec "0000180a-0000-1000-8000-00805f9b34fb") =
      .ok (some chHeart) := by
  have h := c2_uuid_lookup_three_way
    ⟨[(1, svcHeart), (2, svcHeartDup)], [(10, chHeart)], []⟩ "180a"
  have h2 := c2_uuid_lookup_three_way
    ⟨[(1, svcHeart), (2, svcHeartDup)], [(10, chHeart)], []⟩
    "0000180a-0000-1000-8000-00805f9b34fb"
  exact ⟨h.2.2.1 (by decide), h2.2.2.2.2.1 chHeart (by decide)⟩

/-- C1 counterexample: a characteristic whose `service_handle` (99) is not a
key of the service mapping, but whose `handle` (1) is already present in the
characteristic mapping, is silently skipped — `add_characteristic` returns
with no error and no state change, because the duplicate-handle check runs
before the parent probe. The claim's universal "fails with an explicit
error" is therefore false. -/
theorem c1_counterexample :
    dictMem (⟨[], [(1, ⟨1, "00002222-0000-1000-8000-00805f9b34fb", 7, []⟩)],
        []⟩ : BleakGATTServiceCollection).services 99 = false ∧
    (⟨[], [(1, ⟨1, "00002222-0000-1000-8000-00805f9b34fb", 7, []⟩)], []⟩ :
        BleakGATTServiceCollection).add_characteristic
        ⟨1, "00003333-0000-1000-8000-00805f9b34fb", 99, []⟩ =
      (⟨[], [(1, ⟨1, "00002222-0000-1000-8000-00805f9b34fb", 7, []⟩)], []⟩,
        none) := by
  decide

/-- C1 (amended): when the characteristic's handle is not already present in
the characteristic mapping, `add_characteristic` with an absent owning
service raises `KeyError` (the Python equivalent of the spec's
missing-parent error) to the caller; symmetrically `add_descriptor` with a
fresh descriptor handle and an absent owning characteristic raises
`KeyError`. -/
theorem c1_missing_parent_raises (col : BleakGATTServiceCollection)
    (c : BleakGATTCharacteristic) (d : BleakGATTDescriptor)
    (hc1 : dictMem col.characteristics c.handle = false)
    (hc2 : dictMem col.services c.service_handle = false)
    (hd1 : dictMem col.descriptors d.handle = false)
    (hd2 : dictMem col.characteristics d.characteristic_handle = false) :
    (col.add_characteristic c).2 = some (.keyError c.service_handle) ∧
    (col.add_descriptor d).2 = some (.keyError d.characteristic_handle) := by
  constructor
  · unfold BleakGATTServiceCollection.add_characteristic
    rw [hc1]
    simp [dictGet_eq_none_of_not_mem _ _ hc2]
  · unfold BleakGATTServiceCollection.add_descriptor
    rw [hd1]
    simp [dictGet_eq_none_of_not_mem _ _ hd2]

/-- C1 witness: on the empty collection, adding a characteristic (owning
service absent) and adding a descriptor (owning characteristic absent) both
raise `KeyError`. -/
theorem c1_witness :
    (emptyCol.add_characteristic chHeart).2 = some (.keyError 1) ∧
    (emptyCol.add_descriptor descCccd).2 = some (.keyError 10) :=
  c1_missing_parent_raises emptyCol chHeart descCccd
    (by decide) (by decide) (by decide) (by decide)

/-- C10: the failing `add_characteristic` is not atomic: with a fresh handle
and an absent owning service it raises, but only after storing the
characteristic in the flat mapping — afterwards the characteristic is
reachable via `get_characteristic(handle)` while the service mapping (and
hence every service's child list) is untouched; `add_descriptor` mutates the
descriptor mapping before its missing-parent failure in the same way. -/
theorem c10_failed_add_leaves_entry (col : BleakGATTServiceCollection)
    (c : BleakGATTCharacteristic) (d : BleakGATTDescriptor)
    (hc1 : dictMem col.characteristics c.handle = false)
    (hc2 : dictMem col.services c.service_handle = false)
    (hd1 : dictMem col.descriptors d.handle = false)
    (hd2 : dictMem col.characteristics d.characteristic_handle = false) :
    ((col.add_characteristic c).2).isSome = true ∧
    (col.add_characteristic c).1.get_characteristic (.intSpec c.handle) =
      .ok (some c) ∧
    (col.add_characteristic c).1.services = col.services ∧
    ((col.add_descriptor d).2).isSome = true ∧
    (col.add_descriptor d).1.get_descriptor (.intSpec d.handle) = some d ∧
    (col.add_descriptor d).1.characteristics = col.characteristics := by
  have hstepc : col.add_characteristic c =
      ({ col with characteristics :=
          dictInsert col.characteristics c.handle c },
        some (.keyError c.service_handle)) := by
    unfold BleakGATTServiceCollection.add_characteristic
    rw [hc1]
    simp [dictGet_eq_none_of_not_mem _ _ hc2]
  have hstepd : col.add_descriptor d =
      ({ col with descriptors := dictInsert col.descriptors d.handle d },
        some (.keyError d.characteristic_handle)) := by
    unfold BleakGATTServiceCollection.add_descriptor
    rw [hd1]
    simp [dictGet_eq_none_of_not_mem _ _ hd2]
  rw [hstepc, hstepd]
  refine ⟨rfl, ?_, rfl, rfl, ?_, rfl⟩
  · show Except.ok (dictGet (dictInsert col.characteristics c.handle c)
      c.handle) = Except.ok (some c)
    rw [dictGet_insert_self _ _ _ hc1]
  · show dictGet (dictInsert col.descriptors d.handle d) d.handle = some d
    rw [dictGet_insert_self _ _ _ hd1]

/-- C10 witness: after the failing adds on the empty collection, the orphan
characteristic and descriptor remain stored in their flat mappings. -/
theorem c10_witness :
    ((emptyCol.add_characteristic chHeart).2).isSome = true ∧
    (emptyCol.add_characteristic chHeart).1.get_characteristic
      (.intSpec 10) = .ok (some chHeart) ∧
    (emptyCol.add_characteristic chHeart).1.services = [] ∧
    ((emptyCol.add_descriptor descCccd).2).isSome = true ∧
    (emptyCol.add_descriptor descCccd).1.get_descriptor (.intSpec 5) =
      some descCccd ∧
    (emptyCol.add_descriptor descCccd).1.characteristics = [] :=
  c10_failed_add_leaves_entry emptyCol chHeart descCccd
    (by decide) (by decide) (by decide) (by decide)

/-- C6: adding a characteristic whose owning service is present and whose
handle is fresh succeeds (no error), stores the characteristic in the flat
mapping under its handle, and appends it to the owning service's
`characteristics` sequence, where it appears exactly once (given it was not
already there) and as the last element; a repeated `add_characteristic`
with the same handle changes nothing, keeping the flat mapping and the
parent's child list in agreement. The service-side append is modelled from
the spec (the method is abstract in the source). -/
theorem c6_characteristic_linked (col : BleakGATTServiceCollection)
    (c c2 : BleakGATTCharacteristic) (s : BleakGATTService)
    (hs : dictGet col.services c.service_handle = some s)
    (hfresh : dictMem col.characteristics c.handle = false)
    (hnew : c ∉ s.characteristics)
    (hdup : c2.handle = c.handle) :
    (col.add_characteristic c).2 = none ∧
    dictGet (col.add_characteristic c).1.characteristics c.handle = some c ∧
    dictGet (col.add_characteristic c).1.services c.service_handle =
      some { s with characteristics := s.characteristics ++ [c] } ∧
    (s.characteristics ++ [c]).count c = 1 ∧
    (s.characteristics ++ [c]).getLast? = some c ∧
    (col.add_characteristic c).1.add_characteristic c2 =
      ((col.add_characteristic c).1, none) := by
  have hstep : col.add_characteristic c =
      ({ col with
          characteristics := dictInsert col.characteristics c.handle c,
          services := dictSet col.services c.service_handle
            (s.add_characteristic c) }, none) := by
    unfold BleakGATTServiceCollection.add_characteristic
    rw [hfresh]
    simp [hs]
  refine ⟨?_, ?_, ?_, ?_, List.getLast?_concat _, ?_⟩
  · rw [hstep]
  · rw [hstep]
    exact dictGet_insert_self _ _ _ hfresh
  · rw [hstep]
    show dictGet (dictSet col.services c.service_handle
      (s.add_characteristic c)) c.service_handle = _
    rw [dictGet_set_self _ _ _ (by rw [hs]; rfl)]
    rfl
  · rw [List.count_append, List.count_eq_zero_of_not_mem hnew]
    simp
  · rw [hstep]
    unfold BleakGATTServiceCollection.add_characteristic
    rw [hdup]
    simp [dictMem_insert_self]

/-- C6 witness: adding `chHeart` to a collection holding its owning service
links it into both views, and a repeated add with the same handle is a
no-op. -/
theorem c6_witness :
    ((⟨[(1, svcHeart)], [], []⟩ :
        BleakGATTServiceCollection).add_characteristic chHeart).2 = none ∧
    dictGet ((⟨[(1, svcHeart)], [], []⟩ :
        BleakGATTServiceCollection).add_characteristic chHeart).1.characteristics
        10 = some chHeart ∧
    dictGet ((⟨[(1, svcHeart)], [], []⟩ :
        BleakGATTServiceCollection).add_characteristic chHeart).1.services 1 =
      some { svcHeart with characteristics := svcHeart.characteristics ++ [chHeart] } ∧
    (svcHeart.characteristics ++ [chHeart]).count chHeart = 1 ∧
    (svcHeart.characteristics ++ [chHeart]).getLast? = some chHeart ∧
    ((⟨[(1, svcHeart)], [], []⟩ :
        BleakGATTServiceCollection).add_characteristic chHeart).1.add_characteristic
        ⟨10, "00004444-0000-1000-8000-00805f9b34fb", 2, []⟩ =
      (((⟨[(1, svcHeart)], [], []⟩ :
        BleakGATTServiceCollection).add_characteristic chHeart).1, none) :=
  c6_characteristic_linked ⟨[(1, svcHeart)], [], []⟩ chHeart
    ⟨10, "00004444-0000-1000-8000-00805f9b34fb", 2, []⟩ svcHeart
    (by decide) (by decide) (by decide) (by decide)

/-- C8: `BleakGATTService.get_characteristic` normalizes the query (16-bit
expansion when 4 characters long, then lower-casing) and returns the first
characteristic in insertion order whose stored UUID equals the normalized
query — even when later characteristics also match — and `None` when none
match; by its `Option` return type it never raises an ambiguity error. -/
theorem c8_service_first_match (s : BleakGATTService) (u : String) :
    (∀ l1 (c : BleakGATTCharacteristic) l2,
      s.characteristics = l1 ++ c :: l2 →
      c.uuid = pyLower (if u.length == 4 then baseUuidExpand u else u) →
      (∀ c' ∈ l1,
        c'.uuid ≠ pyLower (if u.length == 4 then baseUuidExpand u else u)) →
      s.get_characteristic u = some c) ∧
    ((∀ c' ∈ s.characteristics,
      c'.uuid ≠ pyLower (if u.length == 4 then baseUuidExpand u else u)) →
      s.get_characteristic u = none) := by
  constructor
  · intro l1 c l2 hsplit hc hl1
    unfold BleakGATTService.get_characteristic
    rw [hsplit, List.find?_append]
    have h1 : l1.find? (fun x =>
        x.uuid == pyLower (if u.length == 4 then baseUuidExpand u else u)) =
        none := by
      rw [List.find?_eq_none]
      intro a ha
      have hna := hl1 a ha
      simp only [beq_iff_eq] at hna ⊢
      exact hna
    rw [h1, List.find?_cons_of_pos _ (by simp [hc])]
    rfl
  · intro h
    unfold BleakGATTService.get_characteristic
    rw [List.find?_eq_none]
    intro a ha
    have hna := h a ha
    simp only [beq_iff_eq] at hna ⊢
    exact hna

/-- C8 witness: two characteristics share the canonical form of `180A`; the
query returns the first (handle 10), not the second, and a non-matching
query returns `None`. -/
theorem c8_witness :
    (⟨1, "00001800-0000-1000-8000-00805f9b34fb",
        [chHeart, ⟨11, "0000180a-0000-1000-8000-00805f9b34fb", 1, []⟩]⟩ :
      BleakGATTService).get_characteristic "180A" = some chHeart ∧
    (⟨1, "00001800-0000-1000-8000-00805f9b34fb",
        [chHeart, ⟨11, "0000180a-0000-1000-8000-00805f9b34fb", 1, []⟩]⟩ :
      BleakGATTService).get_characteristic "2a00" = none := by
  have h := c8_service_first_match
    ⟨1, "00001800-0000-1000-8000-00805f9b34fb",
      [chHeart, ⟨11, "0000180a-0000-1000-8000-00805f9b34fb", 1, []⟩]⟩ "180A"
  have h2 := c8_service_first_match
    ⟨1, "00001800-0000-1000-8000-00805f9b34fb",
      [chHeart, ⟨11, "0000180a-0000-1000-8000-00805f9b34fb", 1, []⟩]⟩ "2a00"
  exact ⟨h.1 [] chHeart [⟨11, "0000180a-0000-1000-8000-00805f9b34fb", 1, []⟩]
      (by decide) (by decide) (by decide),
    h2.2 (by decide)⟩

/-- C3 counterexample: a characteristic stored under the expanded canonical
form of `180a` is NOT found by the short-form query at the collection level
(`get_characteristic` returns `None`), while `get_service` with the very
same short query does expand it and finds a service with the identical
UUID — so the collection-level `get_characteristic` does not resolve a
4-character UUID as `get_service` does, refuting the claim. -/
theorem c3_counterexample :
    chHeart.uuid = baseUuidExpand (pyLower "180a") ∧
    (⟨[(1, svcHeart)], [(10, chHeart)], []⟩ :
        BleakGATTServiceCollection).get_characteristic (.strSpec "180a") =
      .ok none ∧
    (⟨[(1, svcHeart)], [(10, chHeart)], []⟩ :
        BleakGATTServiceCollection).get_service (.strSpec "180a") =
      .ok (some svcHeart) := by
  decide

/-- C3 (amended): the collection-level `get_characteristic` performs no
16-bit expansion on a 4-character UUID string: the query is only
lower-cased, so whenever no stored characteristic's UUID literally equals
the lower-cased 4-character string, the lookup returns `None` — even when a
characteristic is stored under the expanded canonical form. -/
theorem c3_no_expansion_in_get_characteristic
    (col : BleakGATTServiceCollection) (s : String)
    (hlen : s.length = 4)
    (hnone : ∀ c ∈ dictValues col.characteristics, c.uuid ≠ pyLower s) :
    col.get_characteristic (.strSpec s) = .ok none := by
  have hx : col.matchingCharacteristics s = [] := by
    unfold BleakGATTServiceCollection.matchingCharacteristics
    rw [List.filter_eq_nil_iff]
    intro c hc
    have hnc := hnone c hc
    simp only [beq_iff_eq]
    exact hnc
  simp [BleakGATTServiceCollection.get_characteristic, hx]

/-- C3 witness: the short query `180a` finds nothing among characteristics
stored under the canonical 128-bit form. -/
theorem c3_witness :
    (⟨[(1, svcHeart)], [(10, chHeart)], []⟩ :
        BleakGATTServiceCollection).get_characteristic (.strSpec "180a") =
      .ok none :=
  c3_no_expansion_in_get_characteristic
    ⟨[(1, svcHeart)], [(10, chHeart)], []⟩ "180a" (by decide) (by decide)

/-- C4 counterexample: a characteristic stored with uppercase hex letters in
its UUID is found neither by the identical uppercase query nor by the
lowercase query, at the collection level and at the service level alike —
refuting the claim that every UUID lookup path is case-insensitive on both
sides. -/
theorem c4_counterexample :
    chUpper.uuid = "0000180A-0000-1000-8000-00805F9B34FB" ∧
    (⟨[], [(11, chUpper)], []⟩ :
        BleakGATTServiceCollection).get_characteristic
        (.strSpec "0000180A-0000-1000-8000-00805F9B34FB") = .ok none ∧
    (⟨[], [(11, chUpper)], []⟩ :
        BleakGATTServiceCollection).get_characteristic
        (.strSpec "0000180a-0000-1000-8000-00805f9b34fb") = .ok none ∧
    (⟨1, "00001800-0000-1000-8000-00805f9b34fb", [chUpper]⟩ :
        BleakGATTService).get_characteristic
        "0000180A-0000-1000-8000-00805F9B34FB" = none := by
  decide

/-- C4 (amended): only `get_service` is case-insensitive on both sides (a
service matches iff its lower-cased stored UUID equals the normalized
query, so services stored with uppercase letters are found by any-case
queries); the collection-level and service-level characteristic lookups
lower-case only the query, so a characteristic matches only when its stored
UUID literally equals the lower-cased query — in particular a stored
characteristic UUID containing an uppercase letter is never matched. -/
theorem c4_case_folding_asymmetry (col : BleakGATTServiceCollection)
    (sv : BleakGATTService) (u : String) (v : BleakGATTService)
    (c : BleakGATTCharacteristic) :
    (v ∈ col.matchingServices u ↔
      v ∈ dictValues col.services ∧
        pyLower v.uuid = BleakGATTServiceCollection.uuidQueryNorm u) ∧
    (c ∈ col.matchingCharacteristics u → c.uuid = pyLower u) ∧
    (c ∈ col.matchingCharacteristics u →
      ∀ ch ∈ c.uuid.data, ch.isUpper = false) ∧
    (sv.get_characteristic u = some c →
      c.uuid = pyLower (if u.length == 4 then baseUuidExpand u else u)) := by
  have hmc : c ∈ col.matchingCharacteristics u → c.uuid = pyLower u := by
    intro h
    unfold BleakGATTServiceCollection.matchingCharacteristics at h
    have := (List.mem_filter.mp h).2
    simpa using this
  refine ⟨?_, hmc, ?_, ?_⟩
  · unfold BleakGATTServiceCollection.matchingServices
    rw [List.mem_filter]
    simp
  · intro h
    rw [hmc h]
    exact pyLower_no_upper u
  · intro h
    unfold BleakGATTService.get_characteristic at h
    have := List.find?_some h
    simpa using this

/-- C4 witness: an uppercase-stored service is matched by a mixed-case query
(case-insensitive on both sides), while a lowercase-stored characteristic
matched by an uppercase query witnesses that the characteristic query is
lower-cased and compared literally against the stored UUID. -/
theorem c4_witness :
    (⟨3, "0000180A-0000-1000-8000-00805F9B34FB", []⟩ : BleakGATTService) ∈
      (⟨[(3, ⟨3, "0000180A-0000-1000-8000-00805F9B34FB", []⟩)], [], []⟩ :
        BleakGATTServiceCollection).matchingServices
        "0000180a-0000-1000-8000-00805F9B34fb" ∧
    chHeart.uuid = pyLower "0000180A-0000-1000-8000-00805F9B34FB" := by
  constructor
  · exact (c4_case_folding_asymmetry
      ⟨[(3, ⟨3, "0000180A-0000-1000-8000-00805F9B34FB", []⟩)], [], []⟩
      svcHeart "0000180a-0000-1000-8000-00805F9B34fb"
      ⟨3, "0000180A-0000-1000-8000-00805F9B34FB", []⟩ chHeart).1.mpr
      ⟨by decide, by decide⟩
  · exact (c4_case_folding_asymmetry
      ⟨[], [(10, chHeart)], []⟩ svcHeart
      "0000180A-0000-1000-8000-00805F9B34FB" svcHeart chHeart).2.1
      (by decide)
